import Mathlib

/-!
Verification of the device status ledger of the gemini-q2b inventory
application.

The definitions below are shallow embeddings of the SQL trigger functions,
the ledger-creation functions and the device-history read path of the
repository:

* `supabase/migrations/20250205093405_light_fire.sql` — the (latest, hence
  authoritative) trigger function `trg_cellular_device_transaction`, which
  appends audit rows on device INSERT and UPDATE.  The serial-device
  function `trg_serial_device_transaction` in the same file is textually
  identical apart from the table names, so the single embedding of its
  branches serves both device kinds.
* the unnamed migration holding `fn_create_cellular_transaction`,
  `fn_create_serial_transaction`, `fn_create_part_transaction`,
  `fn_create_accessory_transaction`, `trg_part_quantity_change`,
  `trg_accessory_quantity_change` and `trg_after_serial_device_update`.
* `src/pages/PurchaseOrderDetail.tsx`, `loadDeviceHistory`.

The two device tables end up with different trigger sets.  The cold_hill
migration (2025-02-04) drops `cellular_devices` CASCADE and recreates it,
which removes every trigger it carried, and light_fire (2025-02-05) then
installs `trg_cellular_device_transaction` as the only audit trigger on
cellular devices.  `serial_devices`, however, is never recreated and no
migration drops `trg_after_serial_device_update` (light_fire drops only a
trigger named `trg_serial_device_transaction`), so a serial device update
that changes the status column fires both audit triggers: first
`trg_after_serial_device_update` (trigger names fire in alphabetical
order), then `trg_serial_device_transaction`.  Both paths are embedded
below (`updateRows` for the light_fire trigger's rows,
`trg_after_serial_device_update` and `applySerialUpdate` for the combined
serial effect).

SQL NULL is modelled with `Option`; a plpgsql `RAISE EXCEPTION` is modelled
with `Except.error`, which also captures the enclosing transaction rolling
back (an error produces no ledger rows).  UUIDs and timestamps are modelled
as natural numbers.
-/

namespace DeviceLedger

/-- UUID values, modelled as natural numbers. -/
abbrev UUID := Nat

/-- The `device_status` enum of the schema. -/
inductive DeviceStatus where
  | in_stock
  | sold
  | returned
  | quarantine
  | repair
  | qc_required
  | qc_failed
deriving DecidableEq, Repr

/-- The `transaction_type` enum of the schema. -/
inductive TransactionType where
  | purchase
  | sale
  | return_in
  | return_out
  | repair
  | qc
  | transfer
deriving DecidableEq, Repr

/-- A `cellular_devices` (equally `serial_devices`) row, restricted to the
columns the trigger functions read.  Per the table DDL, `status`,
`repair_completed`, `created_by` and `updated_by` are NOT NULL, while
`qc_status` and `qc_comments` are nullable. -/
structure Device where
  id : UUID
  status : DeviceStatus
  qc_status : Option String
  qc_comments : Option String
  repair_completed : Bool
  created_by : UUID
  updated_by : UUID
deriving DecidableEq, Repr

/-- A `cellular_device_transactions` (equally `serial_device_transactions`)
row.  `previous_status` is the single nullable status column (its NOT NULL
constraint was dropped by the lively_band migration). -/
structure TransactionRow where
  device_id : UUID
  transaction_type : TransactionType
  reference_id : UUID
  previous_status : Option DeviceStatus
  new_status : DeviceStatus
  notes : Option String
  created_by : UUID
deriving DecidableEq, Repr

/-- The CASE expression classifying a status change in the UPDATE branch of
`trg_cellular_device_transaction`. -/
def classifyStatusChange : DeviceStatus → TransactionType
  | .sold => .sale
  | .returned => .return_in
  | .repair => .repair
  | .qc_required => .qc
  | _ => .transfer

/-- The CASE expression computing the notes column of a status-change row in
`trg_cellular_device_transaction`. -/
def statusChangeNotes (d : Device) : Option String :=
  match d.status with
  | .qc_required =>
      match d.qc_status with
      | some q => some ("QC " ++ q ++ ": " ++ d.qc_comments.getD "")
      | none => some "Pending QC"
  | .repair => some (if d.repair_completed then "Repair completed" else "Repair required")
  | _ => none

/-- The INSERT branch of `trg_cellular_device_transaction`.  `pod` is the
set of device ids referenced by `purchase_order_devices` rows at insertion
time. -/
def insertRow (pod : List UUID) (d : Device) : TransactionRow :=
  { device_id := d.id
  , transaction_type := if pod.contains d.id then .purchase else .transfer
  , reference_id := d.id
  , previous_status := none
  , new_status := d.status
  , notes := some "Device created"
  , created_by := d.created_by }

/-- The status-change branch of the UPDATE path: fires when
`OLD.status != NEW.status`. -/
def statusRow (old new : Device) : Option TransactionRow :=
  if old.status ≠ new.status then
    some { device_id := new.id
         , transaction_type := classifyStatusChange new.status
         , reference_id := new.id
         , previous_status := some old.status
         , new_status := new.status
         , notes := statusChangeNotes new
         , created_by := new.updated_by }
  else none

/-- SQL `a != b` on nullable text: a comparison involving NULL is NULL,
which an IF condition treats as not true. -/
def sqlTextNe (a b : Option String) : Bool :=
  match a, b with
  | some x, some y => x != y
  | _, _ => false

/-- The guard of the QC branch:
`(OLD.qc_status IS NULL AND NEW.qc_status IS NOT NULL) OR
 (OLD.qc_status IS NOT NULL AND NEW.qc_status != OLD.qc_status)`. -/
def qcChanged (old new : Device) : Bool :=
  (old.qc_status.isNone && new.qc_status.isSome) ||
    (old.qc_status.isSome && sqlTextNe new.qc_status old.qc_status)

/-- The notes column of a QC row:
`'QC ' || NEW.qc_status || ': ' || COALESCE(NEW.qc_comments, '')`; string
concatenation with NULL is NULL. -/
def qcNote (d : Device) : Option String :=
  match d.qc_status with
  | some q => some ("QC " ++ q ++ ": " ++ d.qc_comments.getD "")
  | none => none

/-- The QC branch of the UPDATE path. -/
def qcRow (old new : Device) : Option TransactionRow :=
  if qcChanged old new then
    some { device_id := new.id
         , transaction_type := .qc
         , reference_id := new.id
         , previous_status := some new.status
         , new_status := new.status
         , notes := qcNote new
         , created_by := new.updated_by }
  else none

/-- The repair branch of the UPDATE path: fires when
`OLD.repair_completed != NEW.repair_completed`. -/
def repairRow (old new : Device) : Option TransactionRow :=
  if old.repair_completed ≠ new.repair_completed then
    some { device_id := new.id
         , transaction_type := .repair
         , reference_id := new.id
         , previous_status := some new.status
         , new_status := new.status
         , notes := some (if new.repair_completed then "Repair completed" else "Repair started")
         , created_by := new.updated_by }
  else none

/-- All rows appended by the UPDATE path of
`trg_cellular_device_transaction` (equally of the textually identical
`trg_serial_device_transaction`) for one row update.  For cellular devices
this is the complete ledger effect of an update; for serial devices it is
only this trigger's contribution — the surviving part_008 trigger
`trg_after_serial_device_update` adds a further row on status changes, see
`applySerialUpdate`. -/
def updateRows (old new : Device) : List TransactionRow :=
  (statusRow old new).toList ++ (qcRow old new).toList ++ (repairRow old new).toList

/-- One firing of the trigger: either a device INSERT (with the
`purchase_order_devices` linkage present at that time) or a device UPDATE. -/
inductive DeviceEvent where
  | insert (pod : List UUID) (d : Device)
  | update (old new : Device)
deriving DecidableEq, Repr

/-- The ledger rows appended by one trigger firing. -/
def eventRows : DeviceEvent → List TransactionRow
  | .insert pod d => [insertRow pod d]
  | .update old new => updateRows old new

/-- The ledger accumulated over a sequence of trigger firings (rows are
append-only; nothing ever deletes or mutates them). -/
def ledgerOf : List DeviceEvent → List TransactionRow
  | [] => []
  | e :: es => eventRows e ++ ledgerOf es

/-- A cellular device row update together with its AFTER UPDATE trigger,
as one atomic operation.  After the cold_hill recreation of
`cellular_devices`, `trg_cellular_device_transaction` is the only audit
trigger on that table; its body contains no RAISE and no condition on the
(old, new) status pair, and every column it inserts is non-null by the
device DDL, so the combined operation always succeeds: the row takes the
requested values and the ledger grows by the trigger's rows.  The serial
analogue, which additionally runs the surviving part_008 trigger (and so
needs a non-null `auth.uid()`), is `applySerialUpdate`. -/
def applyUpdate (old new : Device) (ledger : List TransactionRow) :
    Except String (Device × List TransactionRow) :=
  Except.ok (new, ledger ++ updateRows old new)

/-- The function `fn_create_cellular_transaction`.  It raises when
`device_id`, `trans_type`, `ref_id` or `user_id` is NULL and otherwise
inserts exactly one row.  The `new_status` argument is non-optional here
because the target column is NOT NULL. -/
def fn_create_cellular_transaction (ledger : List TransactionRow)
    (device_id : Option UUID) (trans_type : Option TransactionType)
    (ref_id : Option UUID) (prev_status : Option DeviceStatus)
    (new_status : DeviceStatus) (notes : Option String)
    (user_id : Option UUID) : Except String (List TransactionRow) :=
  match device_id, trans_type, ref_id, user_id with
  | some did, some t, some rid, some uid =>
      Except.ok (ledger ++
        [{ device_id := did
         , transaction_type := t
         , reference_id := rid
         , previous_status := prev_status
         , new_status := new_status
         , notes := notes
         , created_by := uid }])
  | _, _, _, _ => Except.error "Required parameters cannot be null"

/-- The function `fn_create_serial_transaction`; its body is identical to
the cellular variant apart from the target table. -/
def fn_create_serial_transaction (ledger : List TransactionRow)
    (device_id : Option UUID) (trans_type : Option TransactionType)
    (ref_id : Option UUID) (prev_status : Option DeviceStatus)
    (new_status : DeviceStatus) (notes : Option String)
    (user_id : Option UUID) : Except String (List TransactionRow) :=
  match device_id, trans_type, ref_id, user_id with
  | some did, some t, some rid, some uid =>
      Except.ok (ledger ++
        [{ device_id := did
         , transaction_type := t
         , reference_id := rid
         , previous_status := prev_status
         , new_status := new_status
         , notes := notes
         , created_by := uid }])
  | _, _, _, _ => Except.error "Required parameters cannot be null"

/-- A `part_transactions` row (all quantity columns are NOT NULL). -/
structure PartTransactionRow where
  part_id : UUID
  transaction_type : TransactionType
  reference_id : UUID
  quantity : Int
  previous_quantity : Int
  new_quantity : Int
  notes : Option String
  created_by : UUID
deriving DecidableEq, Repr

/-- An `accessory_transactions` row. -/
structure AccessoryTransactionRow where
  accessory_id : UUID
  transaction_type : TransactionType
  reference_id : UUID
  quantity : Int
  previous_quantity : Int
  new_quantity : Int
  notes : Option String
  created_by : UUID
deriving DecidableEq, Repr

/-- The function `fn_create_part_transaction`: null checks first, then
`new_qty < 0` and `ABS(new_qty - prev_qty) != ABS(qty)` each raise, and
otherwise exactly one row is inserted. -/
def fn_create_part_transaction (ledger : List PartTransactionRow)
    (part_id : Option UUID) (trans_type : Option TransactionType)
    (ref_id : Option UUID) (qty prev_qty new_qty : Int)
    (notes : Option String) (user_id : Option UUID) :
    Except String (List PartTransactionRow) :=
  match part_id, trans_type, ref_id, user_id with
  | some pid, some t, some rid, some uid =>
      if new_qty < 0 then Except.error "New quantity cannot be negative"
      else if (new_qty - prev_qty).natAbs ≠ qty.natAbs then
        Except.error "Quantity change mismatch"
      else
        Except.ok (ledger ++
          [{ part_id := pid
           , transaction_type := t
           , reference_id := rid
           , quantity := qty
           , previous_quantity := prev_qty
           , new_quantity := new_qty
           , notes := notes
           , created_by := uid }])
  | _, _, _, _ => Except.error "Required parameters cannot be null"

/-- The function `fn_create_accessory_transaction`; identical validation to
the part variant. -/
def fn_create_accessory_transaction (ledger : List AccessoryTransactionRow)
    (accessory_id : Option UUID) (trans_type : Option TransactionType)
    (ref_id : Option UUID) (qty prev_qty new_qty : Int)
    (notes : Option String) (user_id : Option UUID) :
    Except String (List AccessoryTransactionRow) :=
  match accessory_id, trans_type, ref_id, user_id with
  | some aid, some t, some rid, some uid =>
      if new_qty < 0 then Except.error "New quantity cannot be negative"
      else if (new_qty - prev_qty).natAbs ≠ qty.natAbs then
        Except.error "Quantity change mismatch"
      else
        Except.ok (ledger ++
          [{ accessory_id := aid
           , transaction_type := t
           , reference_id := rid
           , quantity := qty
           , previous_quantity := prev_qty
           , new_quantity := new_qty
           , notes := notes
           , created_by := uid }])
  | _, _, _, _ => Except.error "Required parameters cannot be null"

/-- A `parts` row, restricted to the columns the quantity trigger reads.
The table carries `CONSTRAINT positive_quantity CHECK (quantity >= 0)`. -/
structure Part where
  id : UUID
  quantity : Int
deriving DecidableEq, Repr

/-- An `accessories` row (same relevant columns and CHECK constraint). -/
structure Accessory where
  id : UUID
  quantity : Int
deriving DecidableEq, Repr

/-- The trigger function `trg_part_quantity_change` (AFTER UPDATE OF
quantity ON parts): when the quantity changed it calls
`fn_create_part_transaction` with kind purchase when the quantity rose and
sale otherwise, recorded quantity `ABS(NEW.quantity - OLD.quantity)`, and
`auth.uid()` (the `uid` argument) as the acting user. -/
def trg_part_quantity_change (ledger : List PartTransactionRow)
    (old new : Part) (uid : Option UUID) :
    Except String (List PartTransactionRow) :=
  if old.quantity ≠ new.quantity then
    fn_create_part_transaction ledger (some new.id)
      (some (if old.quantity < new.quantity then .purchase else .sale))
      (some new.id) ((new.quantity - old.quantity).natAbs : Int)
      old.quantity new.quantity none uid
  else Except.ok ledger

/-- The trigger function `trg_accessory_quantity_change`; identical logic
on the accessories table. -/
def trg_accessory_quantity_change (ledger : List AccessoryTransactionRow)
    (old new : Accessory) (uid : Option UUID) :
    Except String (List AccessoryTransactionRow) :=
  if old.quantity ≠ new.quantity then
    fn_create_accessory_transaction ledger (some new.id)
      (some (if old.quantity < new.quantity then .purchase else .sale))
      (some new.id) ((new.quantity - old.quantity).natAbs : Int)
      old.quantity new.quantity none uid
  else Except.ok ledger

/-- Discriminates a successful write from a raised exception. -/
def exceptOk {α : Type} : Except String α → Bool
  | .ok _ => true
  | .error _ => false

/-- The surviving part_008 trigger function
`trg_serial_device_status_change`, installed as
`trg_after_serial_device_update` (AFTER UPDATE OF status ON
serial_devices) and never dropped: on a status change it calls
`fn_create_serial_transaction` with the same CASE kind lookup as the
light_fire trigger (the CASE expressions are textually identical, so
`classifyStatusChange` embeds both), NULL notes, and `auth.uid()` (the
`uid` argument) as the acting user — raising when that is null. -/
def trg_after_serial_device_update (ledger : List TransactionRow)
    (old new : Device) (uid : Option UUID) : Except String (List TransactionRow) :=
  if old.status ≠ new.status then
    fn_create_serial_transaction ledger (some new.id)
      (some (classifyStatusChange new.status)) (some new.id)
      (some old.status) new.status none uid
  else Except.ok ledger

/-- A serial device row update with both of its surviving AFTER UPDATE
audit triggers, as one atomic operation: `trg_after_serial_device_update`
fires first (alphabetical trigger-name order), then the light_fire trigger
`trg_serial_device_transaction` whose rows are `updateRows`; an error from
either aborts the whole update. -/
def applySerialUpdate (old new : Device) (uid : Option UUID)
    (ledger : List TransactionRow) : Except String (Device × List TransactionRow) :=
  match trg_after_serial_device_update ledger old new uid with
  | .error e => .error e
  | .ok L1 => .ok (new, L1 ++ updateRows old new)

/-- A `users` row as read by the history join. -/
structure UserRow where
  id : UUID
  full_name : String
deriving DecidableEq, Repr

/-- A stored `cellular_device_transactions` (or serial) row as the read
path sees it, including the row id and the `created_at` timestamp
(modelled as a natural number). -/
structure LedgerRecord where
  id : UUID
  created_at : Nat
  device_id : UUID
  transaction_type : TransactionType
  previous_status : Option DeviceStatus
  new_status : DeviceStatus
  notes : Option String
  created_by : UUID
deriving DecidableEq, Repr

/-- An entry of the history list built by `loadDeviceHistory`. -/
structure HistoryEntry where
  id : UUID
  date : Nat
  operation : String
  user : Option String
  details : Option String
deriving DecidableEq, Repr

/-- The display string `entry.transaction_type.replace('_', ' ')` of the
read path (JavaScript `replace` rewrites the first occurrence only). -/
def typeLabel : TransactionType → String
  | .purchase => "purchase"
  | .sale => "sale"
  | .return_in => "return in"
  | .return_out => "return out"
  | .repair => "repair"
  | .qc => "qc"
  | .transfer => "transfer"

/-- Rendering of a status in the operation string. -/
def statusLabel : DeviceStatus → String
  | .in_stock => "in_stock"
  | .sold => "sold"
  | .returned => "returned"
  | .quarantine => "quarantine"
  | .repair => "repair"
  | .qc_required => "qc_required"
  | .qc_failed => "qc_failed"

/-- Rendering of the nullable previous status (a JavaScript template
literal prints null as the string null). -/
def prevLabel : Option DeviceStatus → String
  | some s => statusLabel s
  | none => "null"

/-- The per-row mapping of `loadDeviceHistory`: the select joins the acting
user by `created_by` and the map builds the display entry. -/
def toHistoryEntry (users : List UserRow) (r : LedgerRecord) : HistoryEntry :=
  { id := r.id
  , date := r.created_at
  , operation := typeLabel r.transaction_type ++ " (" ++ prevLabel r.previous_status
      ++ " → " ++ statusLabel r.new_status ++ ")"
  , user := (users.find? (fun u => u.id == r.created_by)).map UserRow.full_name
  , details := r.notes }

/-- The order relation of `.order(created_at, descending)`: newest first. -/
def newestFirst (a b : LedgerRecord) : Prop := b.created_at ≤ a.created_at

instance : DecidableRel newestFirst := fun a b => Nat.decLe b.created_at a.created_at

instance : IsTotal LedgerRecord newestFirst :=
  ⟨fun a b => Nat.le_total b.created_at a.created_at⟩

instance : IsTrans LedgerRecord newestFirst :=
  ⟨fun _ _ _ hab hbc => le_trans hbc hab⟩

/-- The read path `loadDeviceHistory`: filter the transaction table by
`device_id`, order by `created_at` descending, and map each row to a
display entry joined with the acting user. -/
def loadDeviceHistory (table : List LedgerRecord) (users : List UserRow)
    (device : UUID) : List HistoryEntry :=
  (List.insertionSort newestFirst (table.filter (fun r => r.device_id == device))).map
    (toHistoryEntry users)

/-! Concrete sample rows used by the witness theorems. -/

/-- A freshly booked device in stock. -/
def devStock : Device :=
  { id := 1, status := .in_stock, qc_status := none, qc_comments := none
  , repair_completed := false, created_by := 7, updated_by := 8 }

/-- The same device after a sale. -/
def devSold : Device := { devStock with status := .sold }

/-- The same device after a single update touching status, QC outcome and
the repair flag at once. -/
def devTriple : Device :=
  { devStock with status := .qc_required, qc_status := some "pass", repair_completed := true }

/-- C1 counterexample: a status-only update of a serial device appends two
ledger rows, not exactly one, because both surviving audit triggers fire;
moving the sample serial device from in_stock to sold under user 9 leaves
a two-row ledger. -/
theorem serial_status_only_two_rows :
    Except.map (fun res => res.2.length)
        (applySerialUpdate devStock devSold (some 9) []) = Except.ok 2
    ∧ (2 : Nat) ≠ 1 :=
  ⟨rfl, by decide⟩

/-- C1 (amended): a status-only update of a cellular device appends
exactly one ledger row, with previous/new statuses the old/new row
statuses and kind given by the fixed lookup on the new status (sold to
sale, returned to return_in, repair to repair, qc_required to qc, anything
else to transfer); the same update of a serial device by an authenticated
user appends exactly two such rows, the surviving part_008 trigger's row
(same statuses and kind, null notes, acting user auth.uid()) followed by
the light_fire trigger's row. -/
theorem status_only_update_ledger_rows (old new : Device)
    (L : List TransactionRow) (uid : UUID)
    (hst : old.status ≠ new.status) (hqc : new.qc_status = old.qc_status)
    (hrep : new.repair_completed = old.repair_completed) :
    updateRows old new =
      [{ device_id := new.id
       , transaction_type := classifyStatusChange new.status
       , reference_id := new.id
       , previous_status := some old.status
       , new_status := new.status
       , notes := statusChangeNotes new
       , created_by := new.updated_by }]
    ∧ applySerialUpdate old new (some uid) L =
        Except.ok (new, L ++
          [{ device_id := new.id
           , transaction_type := classifyStatusChange new.status
           , reference_id := new.id
           , previous_status := some old.status
           , new_status := new.status
           , notes := none
           , created_by := uid },
           { device_id := new.id
           , transaction_type := classifyStatusChange new.status
           , reference_id := new.id
           , previous_status := some old.status
           , new_status := new.status
           , notes := statusChangeNotes new
           , created_by := new.updated_by }])
    ∧ classifyStatusChange .sold = .sale
    ∧ classifyStatusChange .returned = .return_in
    ∧ classifyStatusChange .repair = .repair
    ∧ classifyStatusChange .qc_required = .qc
    ∧ classifyStatusChange .in_stock = .transfer
    ∧ classifyStatusChange .quarantine = .transfer
    ∧ classifyStatusChange .qc_failed = .transfer := by
  have hqcb : qcChanged old new = false := by
    unfold qcChanged sqlTextNe
    rw [hqc]
    cases old.qc_status with
    | none => rfl
    | some x => simp
  have hrows : updateRows old new =
      [{ device_id := new.id
       , transaction_type := classifyStatusChange new.status
       , reference_id := new.id
       , previous_status := some old.status
       , new_status := new.status
       , notes := statusChangeNotes new
       , created_by := new.updated_by }] := by
    simp [updateRows, statusRow, qcRow, repairRow, hst, hqcb, hrep]
  refine ⟨hrows, ?_, rfl, rfl, rfl, rfl, rfl, rfl, rfl⟩
  unfold applySerialUpdate trg_after_serial_device_update fn_create_serial_transaction
  rw [if_pos hst]
  dsimp only
  rw [hrows]
  simp [List.append_assoc]

/-- Witness for the amended C1: the serial in_stock to sold update by user
9 appends the part_008 row then the light_fire row. -/
theorem status_only_update_ledger_rows_witness :
    applySerialUpdate devStock devSold (some 9) [] =
      Except.ok (devSold,
        [{ device_id := 1
         , transaction_type := TransactionType.sale
         , reference_id := 1
         , previous_status := some DeviceStatus.in_stock
         , new_status := DeviceStatus.sold
         , notes := none
         , created_by := 9 },
         { device_id := 1
         , transaction_type := TransactionType.sale
         , reference_id := 1
         , previous_status := some DeviceStatus.in_stock
         , new_status := DeviceStatus.sold
         , notes := none
         , created_by := 8 }]) :=
  (status_only_update_ledger_rows devStock devSold [] 9 (by decide) rfl rfl).2.1

/-- C3 counterexample: a serial device update that changes status, QC
outcome and repair flag at once appends four ledger rows, not exactly
three: the surviving part_008 status trigger adds a row beside the three
of the light_fire trigger. -/
theorem serial_triple_change_four_rows :
    Except.map (fun res => res.2.length)
        (applySerialUpdate devStock devTriple (some 9) []) = Except.ok 4
    ∧ (4 : Nat) ≠ 3 :=
  ⟨rfl, by decide⟩

/-- C3 (amended): the three update-path checks of the light_fire trigger
are independent, and an update satisfying all three fire conditions at
once appends exactly three rows from that trigger; on a cellular device
that is the whole ledger effect, while on a serial device the surviving
part_008 status trigger appends a fourth row. -/
theorem triple_change_ledger_rows (old new : Device) (L : List TransactionRow)
    (uid : UUID) (hst : old.status ≠ new.status) (hqc : qcChanged old new = true)
    (hrep : old.repair_completed ≠ new.repair_completed) :
    (updateRows old new).length = 3
    ∧ applyUpdate old new L = Except.ok (new, L ++ updateRows old new)
    ∧ ∀ d2 L2, applySerialUpdate old new (some uid) L = Except.ok (d2, L2) →
        L2.length = L.length + 4 := by
  have h3 : (updateRows old new).length = 3 := by
    simp [updateRows, statusRow, qcRow, repairRow, hst, hqc, hrep]
  refine ⟨h3, rfl, ?_⟩
  intro d2 L2 h
  unfold applySerialUpdate trg_after_serial_device_update fn_create_serial_transaction at h
  rw [if_pos hst] at h
  dsimp only at h
  cases h
  simp [h3]

/-- Witness for the amended C3: the sample triple update yields three rows
from the light_fire trigger. -/
theorem triple_change_ledger_rows_witness :
    (updateRows devStock devTriple).length = 3 :=
  (triple_change_ledger_rows devStock devTriple [] 9 (by decide) (by decide) (by decide)).1

/-- C6: the QC branch of the update path fires exactly when the QC outcome
is assigned for the first time or changed to a different (non-null) value,
and its row has kind qc, previous and new status both the current device
status, and a note holding the QC verdict and comments. -/
theorem qc_outcome_row_spec (old new : Device) :
    ((qcRow old new).isSome = true ↔
        ((old.qc_status = none ∧ new.qc_status ≠ none) ∨
         (old.qc_status ≠ none ∧ new.qc_status ≠ none ∧ new.qc_status ≠ old.qc_status)))
    ∧ (∀ r : TransactionRow, qcRow old new = some r →
        r.transaction_type = TransactionType.qc ∧
        r.previous_status = some new.status ∧
        r.new_status = new.status ∧
        r.device_id = new.id ∧
        r.notes = qcNote new ∧
        (∀ q : String, new.qc_status = some q →
          r.notes = some ("QC " ++ q ++ ": " ++ new.qc_comments.getD "")))
    ∧ updateRows old new =
        (statusRow old new).toList ++ (qcRow old new).toList ++ (repairRow old new).toList := by
  refine ⟨?_, ?_, rfl⟩
  · unfold qcRow qcChanged sqlTextNe
    cases ho : old.qc_status <;> cases hn : new.qc_status <;> simp [bne_iff_ne]
  · intro r hr
    unfold qcRow at hr
    split at hr
    · cases hr
      refine ⟨rfl, rfl, rfl, rfl, rfl, ?_⟩
      intro q hq
      unfold qcNote
      rw [hq]
    · cases hr

/-- Witness for C6: on the sample triple update the QC branch fires, since
the outcome was assigned for the first time. -/
theorem qc_outcome_row_spec_witness :
    (qcRow devStock devTriple).isSome = true ↔
      ((devStock.qc_status = none ∧ devTriple.qc_status ≠ none) ∨
       (devStock.qc_status ≠ none ∧ devTriple.qc_status ≠ none ∧
        devTriple.qc_status ≠ devStock.qc_status)) :=
  (qc_outcome_row_spec devStock devTriple).1

/-- C8: the ledger never rejects a status transition; for any pair of
distinct statuses the update succeeds, the device takes the requested
values, and the only further effect is the appended ledger rows. -/
theorem any_status_transition_accepted (old new : Device) (L : List TransactionRow)
    (hst : old.status ≠ new.status) :
    applyUpdate old new L = Except.ok (new, L ++ updateRows old new)
    ∧ ∀ d2 L2, applyUpdate old new L = Except.ok (d2, L2) →
        d2.status = new.status ∧ L2 = L ++ updateRows old new := by
  refine ⟨rfl, ?_⟩
  intro d2 L2 h
  simp only [applyUpdate, Except.ok.injEq, Prod.mk.injEq] at h
  obtain ⟨h1, h2⟩ := h
  exact ⟨by rw [← h1], h2.symm⟩

/-- Witness for C8: the sample in_stock to sold update is accepted. -/
theorem any_status_transition_accepted_witness :
    applyUpdate devStock devSold [] = Except.ok (devSold, [] ++ updateRows devStock devSold) :=
  (any_status_transition_accepted devStock devSold [] (by decide)).1

/-- The ledger of a concatenated trace splits as the two ledgers. -/
theorem ledgerOf_append (es fs : List DeviceEvent) :
    ledgerOf (es ++ fs) = ledgerOf es ++ ledgerOf fs := by
  induction es with
  | nil => rfl
  | cons e es ih => simp [ledgerOf, ih]

/-- An element of `Option.toList` determines the option. -/
theorem eq_some_of_mem_toList {α : Type} {o : Option α} {a : α}
    (h : a ∈ o.toList) : o = some a := by
  cases o <;> simp_all

/-- Every row produced by the update path carries a non-null previous
status: the status branch records the old status, the QC and repair
branches the current status. -/
theorem updateRows_prev_isSome (old new : Device) (r : TransactionRow)
    (hr : r ∈ updateRows old new) : r.previous_status.isSome = true := by
  unfold updateRows at hr
  simp only [List.mem_append] at hr
  rcases hr with (h | h) | h
  · have hs := eq_some_of_mem_toList h
    unfold statusRow at hs
    split at hs
    · cases hs; rfl
    · cases hs
  · have hs := eq_some_of_mem_toList h
    unfold qcRow at hs
    split at hs
    · cases hs; rfl
    · cases hs
  · have hs := eq_some_of_mem_toList h
    unfold repairRow at hs
    split at hs
    · cases hs; rfl
    · cases hs

/-- C7: a ledger row has a null previous status exactly when it was
produced by the device-creation (insert) path; every update-path row has a
non-null previous status. -/
theorem prev_status_null_iff_insert (e : DeviceEvent) (r : TransactionRow)
    (hr : r ∈ eventRows e) :
    r.previous_status = none ↔ ∃ pod d, e = DeviceEvent.insert pod d := by
  cases e with
  | insert pod d =>
      have hr2 : r = insertRow pod d := by simpa [eventRows] using hr
      subst hr2
      exact ⟨fun _ => ⟨pod, d, rfl⟩, fun _ => rfl⟩
  | update old new =>
      constructor
      · intro h
        have := updateRows_prev_isSome old new r hr
        rw [h] at this
        cases this
      · rintro ⟨pod, d, h⟩
        cases h

/-- Witness for C7: the creation row of the sample device has a null
previous status and comes from an insert event. -/
theorem prev_status_null_iff_insert_witness :
    (insertRow [] devStock).previous_status = none ↔
      ∃ pod d, DeviceEvent.insert [] devStock = DeviceEvent.insert pod d :=
  prev_status_null_iff_insert (DeviceEvent.insert [] devStock) (insertRow [] devStock)
    (by simp [eventRows])

/-- C2: immediately after a device insertion, exactly one ledger row for
that device exists, with null previous status, new status the device's
initial status, and kind purchase when a purchase_order_devices row already
references the device, else transfer. -/
theorem device_insert_single_audit_row (es : List DeviceEvent) (pod : List UUID)
    (d : Device) (hfresh : ∀ r ∈ ledgerOf es, r.device_id ≠ d.id) :
    (ledgerOf (es ++ [DeviceEvent.insert pod d])).filter (fun r => r.device_id == d.id)
      = [insertRow pod d]
    ∧ (insertRow pod d).previous_status = none
    ∧ (insertRow pod d).new_status = d.status
    ∧ (insertRow pod d).transaction_type =
        (if pod.contains d.id then TransactionType.purchase else TransactionType.transfer) := by
  refine ⟨?_, rfl, rfl, rfl⟩
  rw [ledgerOf_append, List.filter_append]
  have h1 : (ledgerOf es).filter (fun r => r.device_id == d.id) = [] := by
    rw [List.filter_eq_nil_iff]
    intro r hrmem
    simpa using hfresh r hrmem
  have h2 : (ledgerOf [DeviceEvent.insert pod d]).filter (fun r => r.device_id == d.id)
      = [insertRow pod d] := by
    simp [ledgerOf, eventRows, insertRow]
  rw [h1, h2, List.nil_append]

/-- Witness for C2: inserting the sample device into an empty system
leaves exactly its creation row, a transfer since no purchase order
references it. -/
theorem device_insert_single_audit_row_witness :
    (ledgerOf ([] ++ [DeviceEvent.insert [] devStock])).filter
        (fun r => r.device_id == devStock.id) = [insertRow [] devStock]
    ∧ (insertRow [] devStock).previous_status = none
    ∧ (insertRow [] devStock).new_status = devStock.status
    ∧ (insertRow [] devStock).transaction_type =
        (if List.contains [] devStock.id then TransactionType.purchase
         else TransactionType.transfer) :=
  device_insert_single_audit_row [] [] devStock (by simp [ledgerOf])

/-- C4 counterexample: `fn_create_part_transaction` accepts a write whose
recorded quantity delta is -5 while the actual difference between new and
previous quantity is 5, because the source compares absolute values only;
the claim as stated demands this write to fail. -/
theorem part_quantity_delta_counterexample :
    fn_create_part_transaction [] (some 1) (some TransactionType.sale) (some 1)
        (-5) 0 5 none (some 2)
      = Except.ok
          [{ part_id := 1
           , transaction_type := TransactionType.sale
           , reference_id := 1
           , quantity := -5
           , previous_quantity := 0
           , new_quantity := 5
           , notes := none
           , created_by := 2 }]
    ∧ ((5 : Int) - 0 ≠ (-5 : Int)) := by
  exact ⟨rfl, by decide⟩

/-- C4 (amended): for every part or accessory ledger write,
the absolute difference between new and previous quantity equals the
absolute value of the recorded quantity delta and the new quantity is
non-negative; violating either fails the write, leaving zero new rows. -/
theorem quantity_write_validated (L : List PartTransactionRow)
    (LA : List AccessoryTransactionRow) (pid : Option UUID)
    (tt : Option TransactionType) (rid : Option UUID) (qty prev_qty new_qty : Int)
    (nts : Option String) (uid : Option UUID) :
    (∀ L2, fn_create_part_transaction L pid tt rid qty prev_qty new_qty nts uid
        = Except.ok L2 →
      (new_qty - prev_qty).natAbs = qty.natAbs ∧ 0 ≤ new_qty ∧
      ∃ r, L2 = L ++ [r] ∧ r.quantity = qty ∧ r.previous_quantity = prev_qty ∧
        r.new_quantity = new_qty)
    ∧ (((new_qty - prev_qty).natAbs ≠ qty.natAbs ∨ new_qty < 0) →
      ∃ msg, fn_create_part_transaction L pid tt rid qty prev_qty new_qty nts uid
        = Except.error msg)
    ∧ (∀ L2, fn_create_accessory_transaction LA pid tt rid qty prev_qty new_qty nts uid
        = Except.ok L2 →
      (new_qty - prev_qty).natAbs = qty.natAbs ∧ 0 ≤ new_qty ∧
      ∃ r, L2 = LA ++ [r] ∧ r.quantity = qty ∧ r.previous_quantity = prev_qty ∧
        r.new_quantity = new_qty)
    ∧ (((new_qty - prev_qty).natAbs ≠ qty.natAbs ∨ new_qty < 0) →
      ∃ msg, fn_create_accessory_transaction LA pid tt rid qty prev_qty new_qty nts uid
        = Except.error msg) := by
  refine ⟨?_, ?_, ?_, ?_⟩
  · intro L2 h
    unfold fn_create_part_transaction at h
    cases pid <;> cases tt <;> cases rid <;> cases uid <;> try (cases h)
    rename_i pid0 tt0 rid0 uid0
    dsimp only at h
    by_cases hneg : new_qty < 0
    · rw [if_pos hneg] at h; cases h
    · rw [if_neg hneg] at h
      by_cases hmis : (new_qty - prev_qty).natAbs ≠ qty.natAbs
      · rw [if_pos hmis] at h; cases h
      · rw [if_neg hmis] at h
        cases h
        exact ⟨not_not.mp hmis, le_of_not_lt hneg, _, rfl, rfl, rfl, rfl⟩
  · intro hviol
    unfold fn_create_part_transaction
    cases pid <;> cases tt <;> cases rid <;> cases uid <;>
      try (exact ⟨_, rfl⟩)
    dsimp only
    by_cases hneg : new_qty < 0
    · rw [if_pos hneg]; exact ⟨_, rfl⟩
    · have hmis : (new_qty - prev_qty).natAbs ≠ qty.natAbs := by
        rcases hviol with h | h
        · exact h
        · exact absurd h hneg
      rw [if_neg hneg, if_pos hmis]; exact ⟨_, rfl⟩
  · intro L2 h
    unfold fn_create_accessory_transaction at h
    cases pid <;> cases tt <;> cases rid <;> cases uid <;> try (cases h)
    rename_i pid0 tt0 rid0 uid0
    dsimp only at h
    by_cases hneg : new_qty < 0
    · rw [if_pos hneg] at h; cases h
    · rw [if_neg hneg] at h
      by_cases hmis : (new_qty - prev_qty).natAbs ≠ qty.natAbs
      · rw [if_pos hmis] at h; cases h
      · rw [if_neg hmis] at h
        cases h
        exact ⟨not_not.mp hmis, le_of_not_lt hneg, _, rfl, rfl, rfl, rfl⟩
  · intro hviol
    unfold fn_create_accessory_transaction
    cases pid <;> cases tt <;> cases rid <;> cases uid <;>
      try (exact ⟨_, rfl⟩)
    dsimp only
    by_cases hneg : new_qty < 0
    · rw [if_pos hneg]; exact ⟨_, rfl⟩
    · have hmis : (new_qty - prev_qty).natAbs ≠ qty.natAbs := by
        rcases hviol with h | h
        · exact h
        · exact absurd h hneg
      rw [if_neg hneg, if_pos hmis]; exact ⟨_, rfl⟩

/-- Witness for the amended C4: a mismatched recorded delta makes the part
write fail. -/
theorem quantity_write_validated_witness :
    ∃ msg, fn_create_part_transaction [] (some 1) (some TransactionType.sale) (some 1)
        3 0 1 none (some 2) = Except.error msg :=
  (quantity_write_validated [] [] (some 1) (some TransactionType.sale) (some 1)
    3 0 1 none (some 2)).2.1 (by decide)

/-- C5 counterexample: `fn_create_part_transaction` raises although every
required identifying field is non-null, because a negative new quantity
also fails its validation; so a ledger-creation function does not fail only
when a required field is null, refuting the claimed equivalence. -/
theorem nonnull_failure_counterexample :
    fn_create_part_transaction [] (some 1) (some TransactionType.sale) (some 1)
        1 0 (-1) none (some 2)
      = Except.error "New quantity cannot be negative" := by
  rfl

/-- C5 (amended): the cellular and serial device ledger-creation functions
fail exactly when a required identifying field (device id, transaction
kind, reference id, acting user id) is null, while the part and accessory
variants fail exactly when a required field is null, the new quantity is
negative, or the delta magnitudes mismatch; an error writes no ledger row
(the functions return either an error or the input ledger plus one row). -/
theorem creation_failure_characterization (L : List TransactionRow)
    (LP : List PartTransactionRow) (LA : List AccessoryTransactionRow)
    (did : Option UUID) (tt : Option TransactionType) (rid : Option UUID)
    (ps : Option DeviceStatus) (ns : DeviceStatus) (nts : Option String)
    (uid : Option UUID) (qty prev_qty new_qty : Int) :
    exceptOk (fn_create_cellular_transaction L did tt rid ps ns nts uid)
      = (did.isSome && tt.isSome && rid.isSome && uid.isSome)
    ∧ exceptOk (fn_create_serial_transaction L did tt rid ps ns nts uid)
      = (did.isSome && tt.isSome && rid.isSome && uid.isSome)
    ∧ exceptOk (fn_create_part_transaction LP did tt rid qty prev_qty new_qty nts uid)
      = (did.isSome && tt.isSome && rid.isSome && uid.isSome &&
         !(decide (new_qty < 0)) && ((new_qty - prev_qty).natAbs == qty.natAbs))
    ∧ exceptOk (fn_create_accessory_transaction LA did tt rid qty prev_qty new_qty nts uid)
      = (did.isSome && tt.isSome && rid.isSome && uid.isSome &&
         !(decide (new_qty < 0)) && ((new_qty - prev_qty).natAbs == qty.natAbs))
    ∧ (∀ L2, fn_create_cellular_transaction L did tt rid ps ns nts uid = Except.ok L2 →
        ∃ r, L2 = L ++ [r])
    ∧ (∀ L2, fn_create_serial_transaction L did tt rid ps ns nts uid = Except.ok L2 →
        ∃ r, L2 = L ++ [r]) := by
  refine ⟨?_, ?_, ?_, ?_, ?_, ?_⟩
  · cases did <;> cases tt <;> cases rid <;> cases uid <;>
      simp [fn_create_cellular_transaction, exceptOk]
  · cases did <;> cases tt <;> cases rid <;> cases uid <;>
      simp [fn_create_serial_transaction, exceptOk]
  · cases did <;> cases tt <;> cases rid <;> cases uid <;>
      simp [fn_create_part_transaction, exceptOk]
    by_cases hneg : new_qty < 0
    · simp [hneg]
    · by_cases hmis : (new_qty - prev_qty).natAbs = qty.natAbs <;>
        simp [hneg, hmis, exceptOk]
  · cases did <;> cases tt <;> cases rid <;> cases uid <;>
      simp [fn_create_accessory_transaction, exceptOk]
    by_cases hneg : new_qty < 0
    · simp [hneg]
    · by_cases hmis : (new_qty - prev_qty).natAbs = qty.natAbs <;>
        simp [hneg, hmis, exceptOk]
  · intro L2 h
    unfold fn_create_cellular_transaction at h
    cases did <;> cases tt <;> cases rid <;> cases uid <;> cases h
    exact ⟨_, rfl⟩
  · intro L2 h
    unfold fn_create_serial_transaction at h
    cases did <;> cases tt <;> cases rid <;> cases uid <;> cases h
    exact ⟨_, rfl⟩

/-- Witness for the amended C5: with all required fields present the
cellular creation function succeeds. -/
theorem creation_failure_characterization_witness :
    exceptOk (fn_create_cellular_transaction [] (some 1) (some TransactionType.purchase)
        (some 1) none DeviceStatus.in_stock none (some 7))
      = ((some 1 : Option UUID).isSome && (some TransactionType.purchase).isSome &&
         (some 1 : Option UUID).isSome && (some 7 : Option UUID).isSome) :=
  (creation_failure_characterization [] [] [] (some 1) (some TransactionType.purchase)
    (some 1) none DeviceStatus.in_stock none (some 7) 0 0 0).1

/-- C9: the device-history read path returns exactly the ledger rows whose
device id equals the queried device, ordered newest-first by creation
time, each joined (via `toHistoryEntry`) to the acting user's display
name. -/
theorem device_history_read_path (table : List LedgerRecord) (users : List UserRow)
    (device : UUID) :
    (loadDeviceHistory table users device).Perm
        ((table.filter (fun r => r.device_id == device)).map (toHistoryEntry users))
    ∧ (loadDeviceHistory table users device).Pairwise (fun a b => b.date ≤ a.date)
    ∧ ∀ e ∈ loadDeviceHistory table users device,
        ∃ r ∈ table, r.device_id = device ∧ e = toHistoryEntry users r := by
  have hperm :=
    List.perm_insertionSort newestFirst (table.filter (fun r => r.device_id == device))
  refine ⟨hperm.map (toHistoryEntry users), ?_, ?_⟩
  · have hs :=
      List.sorted_insertionSort newestFirst (table.filter (fun r => r.device_id == device))
    unfold loadDeviceHistory
    rw [List.pairwise_map]
    exact hs.imp (fun h => h)
  · intro e he
    have hmem := (hperm.map (toHistoryEntry users)).mem_iff.mp he
    rcases List.mem_map.mp hmem with ⟨r, hrmem, rfl⟩
    rcases List.mem_filter.mp hrmem with ⟨hrt, hrd⟩
    exact ⟨r, hrt, by simpa using hrd, rfl⟩

/-- Witness for C9: applied to a concrete three-row table, two rows of the
queried device and one of another. -/
theorem device_history_read_path_witness :
    (loadDeviceHistory
        [{ id := 1, created_at := 10, device_id := 4
         , transaction_type := TransactionType.sale
         , previous_status := some DeviceStatus.in_stock
         , new_status := DeviceStatus.sold, notes := none, created_by := 7 },
         { id := 2, created_at := 20, device_id := 4
         , transaction_type := TransactionType.qc
         , previous_status := none
         , new_status := DeviceStatus.in_stock, notes := none, created_by := 7 },
         { id := 3, created_at := 15, device_id := 9
         , transaction_type := TransactionType.transfer
         , previous_status := none
         , new_status := DeviceStatus.in_stock, notes := none, created_by := 7 }]
        [{ id := 7, full_name := "Ann" }] 4).Pairwise (fun a b => b.date ≤ a.date) :=
  (device_history_read_path _ _ 4).2.1

/-- C10: an update of a part or accessory row that changes its quantity
appends exactly one ledger row, of kind purchase when the quantity rose and
sale otherwise, recording the absolute difference as the quantity; an
update leaving the quantity unchanged appends nothing.  The hypotheses
reflect the table CHECK constraint `quantity >= 0` and an authenticated
caller (`auth.uid()` non-null). -/
theorem quantity_trigger_one_row (old new : Part) (oldA newA : Accessory)
    (L : List PartTransactionRow) (LA : List AccessoryTransactionRow) (uid : UUID)
    (hq : 0 ≤ new.quantity) (hqa : 0 ≤ newA.quantity) :
    (old.quantity ≠ new.quantity →
      trg_part_quantity_change L old new (some uid) =
        Except.ok (L ++
          [{ part_id := new.id
           , transaction_type :=
               if old.quantity < new.quantity then TransactionType.purchase
               else TransactionType.sale
           , reference_id := new.id
           , quantity := ((new.quantity - old.quantity).natAbs : Int)
           , previous_quantity := old.quantity
           , new_quantity := new.quantity
           , notes := none
           , created_by := uid }]))
    ∧ (old.quantity = new.quantity →
      trg_part_quantity_change L old new (some uid) = Except.ok L)
    ∧ (oldA.quantity ≠ newA.quantity →
      trg_accessory_quantity_change LA oldA newA (some uid) =
        Except.ok (LA ++
          [{ accessory_id := newA.id
           , transaction_type :=
               if oldA.quantity < newA.quantity then TransactionType.purchase
               else TransactionType.sale
           , reference_id := newA.id
           , quantity := ((newA.quantity - oldA.quantity).natAbs : Int)
           , previous_quantity := oldA.quantity
           , new_quantity := newA.quantity
           , notes := none
           , created_by := uid }]))
    ∧ (oldA.quantity = newA.quantity →
      trg_accessory_quantity_change LA oldA newA (some uid) = Except.ok LA) := by
  refine ⟨?_, ?_, ?_, ?_⟩
  · intro hne
    unfold trg_part_quantity_change fn_create_part_transaction
    rw [if_pos hne]
    dsimp only
    rw [if_neg (not_lt.mpr hq), if_neg ?_]
    intro hmis
    exact hmis (Int.natAbs_ofNat _).symm
  · intro heq
    unfold trg_part_quantity_change
    rw [if_neg (by simp [heq])]
  · intro hne
    unfold trg_accessory_quantity_change fn_create_accessory_transaction
    rw [if_pos hne]
    dsimp only
    rw [if_neg (not_lt.mpr hqa), if_neg ?_]
    intro hmis
    exact hmis (Int.natAbs_ofNat _).symm
  · intro heq
    unfold trg_accessory_quantity_change
    rw [if_neg (by simp [heq])]

/-- Witness for C10: raising a part quantity from 2 to 9 appends one
purchase row recording 7. -/
theorem quantity_trigger_one_row_witness :
    trg_part_quantity_change [] { id := 5, quantity := 2 } { id := 5, quantity := 9 }
        (some 3) =
      Except.ok ([] ++
        [{ part_id := 5
         , transaction_type :=
             if (2 : Int) < 9 then TransactionType.purchase else TransactionType.sale
         , reference_id := 5
         , quantity := (((9 : Int) - 2).natAbs : Int)
         , previous_quantity := 2
         , new_quantity := 9
         , notes := none
         , created_by := 3 }]) :=
  (quantity_trigger_one_row { id := 5, quantity := 2 } { id := 5, quantity := 9 }
    { id := 0, quantity := 0 } { id := 0, quantity := 0 } [] [] 3
    (by decide) (by decide)).1 (by decide)

end DeviceLedger
